import Mathlib

/-!
Verification of the ambit block-preconditioner core
(`src/ambit_fe/solver/preconditioner.py`) against its specification.

The PETSc matrix/vector layer is shallowly embedded over the rationals:
a field block is a `Matrix (Fin m) (Fin n) ℚ` and a field vector is a
function `Fin n → ℚ`.  The index-set partition of the global operator is
modelled by keeping each block of the global matrix separately (the
`Op2`/`Op3`/`Op4` structures below), and `getSubVector`/`setValues` by
tupling.  Inner KSP solves are abstract functions `v → v`; `apply`
additionally returns the list of field indices solved, in order, so that
statements about the number and order of field solves are expressible.
-/

/-- A PETSc vector of length `n`, over ℚ. -/
abbrev PVec (n : ℕ) := Fin n → ℚ

/-- A PETSc matrix block with `m` rows and `n` columns, over ℚ. -/
abbrev PMat (m n : ℕ) := Matrix (Fin m) (Fin n) ℚ

/-- PETSc `y.axpby(a, b, x)`: the vector `a • x + b • y`. -/
def axpby {n : ℕ} (a b : ℚ) (x y : PVec n) : PVec n := a • x + b • y

/-- PETSc `y.axpy(a, x)`: the vector `y + a • x`. -/
def axpy {n : ℕ} (a : ℚ) (x y : PVec n) : PVec n := y + a • x

/-- PETSc `Y.axpy(a, X)` on matrices: `Y + a • X`. -/
def mat_axpy {m n : ℕ} (a : ℚ) (X Y : PMat m n) : PMat m n := Y + a • X

/-- PETSc `v.scale(a)`: entrywise scaling. -/
def vec_scale {n : ℕ} (a : ℚ) (v : PVec n) : PVec n := fun i => a * v i

/-- PETSc `v.reciprocal()`: entrywise reciprocal.  PETSc leaves zero
entries at zero; over ℚ this is exactly `(·)⁻¹` since `(0 : ℚ)⁻¹ = 0`. -/
def vec_reciprocal {n : ℕ} (v : PVec n) : PVec n := fun i => (v i)⁻¹

/-- PETSc `v.abs()`: entrywise absolute value. -/
def vec_abs {n : ℕ} (v : PVec n) : PVec n := fun i => |v i|

/-- PETSc `M.getRowSum()`: the vector of row sums of `M`. -/
def getRowSum {m n : ℕ} (M : PMat m n) : PVec m := fun i => ∑ j, M i j

/-- PETSc `M.getDiagonal()`. -/
def getDiagonal {n : ℕ} (M : PMat n n) : PVec n := fun i => M i i

/-- One entry of the `schur_block_scaling` solver-parameter list:
a scaling mode string and a multiplicative factor. -/
structure ScaleOpt where
  type : String
  val : ℚ
deriving DecidableEq, Repr

/-- The scaling vector computed inside `setUp` (before the `scale` by
`val`): branch on `schur_block_scaling[level].type` exactly as the code
does, erroring on an unknown mode string. -/
def scaling_vec_setup {n : ℕ} (opt : ScaleOpt) (M : PMat n n) :
    Except String (PVec n) :=
  if opt.type = "diag" then .ok (vec_reciprocal (getDiagonal M))
  else if opt.type = "rowsum" then .ok (vec_reciprocal (vec_abs (getRowSum M)))
  else if opt.type = "none" then .ok (fun _ => 1)
  else .error "Unknown schur_block_scaling option!"

/-- The scaling vector computed inside `init_mat_vec` (no reciprocal,
no absolute value there: the raw diagonal, the raw row sum, or ones). -/
def scaling_vec_init {n : ℕ} (opt : ScaleOpt) (M : PMat n n) :
    Except String (PVec n) :=
  if opt.type = "diag" then .ok (getDiagonal M)
  else if opt.type = "rowsum" then .ok (getRowSum M)
  else if opt.type = "none" then .ok (fun _ => 1)
  else .error "Unknown schur_block_scaling option!"

/-- Modelled from the spec wording (for comparison with the code): the
ApproximateInverse, a diagonal matrix built from the reciprocal of the
main diagonal (mode `diag`) or of the absolute row sum (mode `rowsum`),
or all ones (mode `none`), scaled by the configured factor. -/
def spec_adinv {n : ℕ} (opt : ScaleOpt) (M : PMat n n) : PMat n n :=
  if opt.type = "diag" then Matrix.diagonal (fun i => opt.val * (M i i)⁻¹)
  else if opt.type = "rowsum" then
    Matrix.diagonal (fun i => opt.val * (|∑ j, M i j|)⁻¹)
  else Matrix.diagonal (fun _ => opt.val)

/-- The nonzero side condition the spec attaches to the scaling modes:
for `diag` every main-diagonal entry of the block is nonzero, for
`rowsum` every row sum is nonzero. -/
def scale_nonzero {n : ℕ} (opt : ScaleOpt) (M : PMat n n) : Prop :=
  (opt.type = "diag" → ∀ i, M i i ≠ 0) ∧
  (opt.type = "rowsum" → ∀ i, (∑ j, M i j) ≠ 0)

instance {n : ℕ} (opt : ScaleOpt) (M : PMat n n) :
    Decidable (scale_nonzero opt M) := by
  unfold scale_nonzero; infer_instance

/-- The 2-field global operator, kept block by block (`P i j` is the
submatrix of the global operator for rows of field `i` and columns of
field `j`, as extracted by `createSubMatrix(iset[i], iset[j])`). -/
structure Op2 (n1 n2 : ℕ) where
  P11 : PMat n1 n1
  P12 : PMat n1 n2
  P21 : PMat n2 n1
  P22 : PMat n2 n2
deriving DecidableEq

/-- Instance state of the `schur_2x2` preconditioner: the extracted
blocks, the derived matrices, the per-field KSP operator bindings, and
the scratch vectors reused across `apply` calls. -/
structure schur_2x2 (n1 n2 : ℕ) where
  A : PMat n1 n1
  Bt : PMat n1 n2
  B : PMat n2 n1
  C : PMat n2 n2
  adinv_vec : PVec n1
  Adinv : PMat n1 n1
  Adinv_Bt : PMat n1 n2
  B_Adinv_Bt : PMat n2 n2
  Smod : PMat n2 n2
  ksp_op0 : PMat n1 n1
  ksp_op1 : PMat n2 n2
  z1 : PVec n1
  z2 : PVec n2
deriving DecidableEq

/-- `schur_2x2.setUp` (lines 287-332 of the source): re-extract the four
blocks, rebuild the scaling vector and `Adinv`, recompute
`Smod = C - B Adinv Bt` through the two stored products, and rebind
the two field KSPs to `A` and `Smod`.  Scratch vectors are untouched. -/
def schur_2x2.setUp {n1 n2 : ℕ} (c0 : ScaleOpt) (P : Op2 n1 n2)
    (s : schur_2x2 n1 n2) : Except String (schur_2x2 n1 n2) :=
  (scaling_vec_setup c0 P.P11).map (fun v0 =>
    let av := vec_scale c0.val v0
    let Adinv : PMat n1 n1 := Matrix.diagonal av
    let Adinv_Bt := Adinv * P.P12
    let B_Adinv_Bt := P.P21 * Adinv_Bt
    let Smod := mat_axpy (-1) B_Adinv_Bt P.P22
    { A := P.P11, Bt := P.P12, B := P.P21, C := P.P22,
      adinv_vec := av, Adinv := Adinv, Adinv_Bt := Adinv_Bt,
      B_Adinv_Bt := B_Adinv_Bt, Smod := Smod,
      ksp_op0 := P.P11, ksp_op1 := Smod,
      z1 := s.z1, z2 := s.z2 })

/-- `schur_2x2.apply` (lines 336-371): the five-step block solve.  The
inner solves bound to fields 0 and 1 are the abstract functions `k0`
and `k1`; the returned list records the field index of each KSP solve
performed, in order. -/
def schur_2x2.apply {n1 n2 : ℕ} (s : schur_2x2 n1 n2)
    (k0 : PVec n1 → PVec n1) (k1 : PVec n2 → PVec n2)
    (x1 : PVec n1) (x2 : PVec n2) : (PVec n1 × PVec n2) × List ℕ :=
  let y1 := k0 x1
  let By1 := s.B.mulVec y1
  let z2 := axpy (-1) By1 (axpby 1 0 x2 s.z2)
  let y2 := k1 z2
  let Bty2 := s.Bt.mulVec y2
  let z1 := axpy (-1) Bty2 (axpby 1 0 x1 s.z1)
  let y1f := k0 z1
  ((y1f, y2), [0, 1, 0])

/-- A `schur_2x2` state with every field zero, standing for the freshly
allocated instance before any `setUp`. -/
def schur_2x2.zero (n1 n2 : ℕ) : schur_2x2 n1 n2 :=
  { A := 0, Bt := 0, B := 0, C := 0, adinv_vec := 0, Adinv := 0,
    Adinv_Bt := 0, B_Adinv_Bt := 0, Smod := 0, ksp_op0 := 0,
    ksp_op1 := 0, z1 := 0, z2 := 0 }

/-- The 3-field global operator, block by block. -/
structure Op3 (n1 n2 n3 : ℕ) where
  P11 : PMat n1 n1
  P12 : PMat n1 n2
  P13 : PMat n1 n3
  P21 : PMat n2 n1
  P22 : PMat n2 n2
  P23 : PMat n2 n3
  P31 : PMat n3 n1
  P32 : PMat n3 n2
  P33 : PMat n3 n3
deriving DecidableEq

/-- Instance state of the `schur_3x3` preconditioner, mirroring the
attribute names of the Python class. -/
structure schur_3x3 (n1 n2 n3 : ℕ) where
  A : PMat n1 n1
  Bt : PMat n1 n2
  Dt : PMat n1 n3
  B : PMat n2 n1
  C : PMat n2 n2
  Et : PMat n2 n3
  D : PMat n3 n1
  E : PMat n3 n2
  R : PMat n3 n3
  adinv_vec : PVec n1
  Adinv : PMat n1 n1
  smoddinv_vec : PVec n2
  Smoddinv : PMat n2 n2
  Adinv_Bt : PMat n1 n2
  DBt : PMat n3 n2
  B_Adinv_Bt : PMat n2 n2
  Adinv_Dt : PMat n1 n3
  B_Adinv_Dt : PMat n2 n3
  D_Adinv_Dt : PMat n3 n3
  Smod : PMat n2 n2
  Tmod : PMat n2 n3
  Smoddinv_Tmod : PMat n2 n3
  Bt_Smoddinv_Tmod : PMat n1 n3
  Adinv_Bt_Smoddinv_Tmod : PMat n1 n3
  D_Adinv_Bt_Smoddinv_Tmod : PMat n3 n3
  E_Smoddinv_Tmod : PMat n3 n3
  Wmod : PMat n3 n3
  ksp_op0 : PMat n1 n1
  ksp_op1 : PMat n2 n2
  ksp_op2 : PMat n3 n3
  z1 : PVec n1
  z2 : PVec n2
  z3 : PVec n3
deriving DecidableEq

/-- `schur_3x3.setUp` (lines 476-575 of the source): re-extract the nine
blocks; build `Adinv` at scaling level 0 from `A`; form
`Smod = C - B Adinv Bt` and `Tmod = Et - B Adinv Dt`; build `Smoddinv`
at scaling level 1 from the freshly computed `Smod`; form
`Wmod = R - D Adinv Dt - E Smoddinv Tmod + D Adinv Bt Smoddinv Tmod`
through the stored intermediate products; rebind the three field KSPs
to `A`, `Smod`, `Wmod`. -/
def schur_3x3.smod_from {n1 n2 n3 : ℕ} (c0val : ℚ) (v0 : PVec n1)
    (P : Op3 n1 n2 n3) : PMat n2 n2 :=
  mat_axpy (-1) (P.P21 * (Matrix.diagonal (vec_scale c0val v0) * P.P12))
    P.P22

/-- The state written by a successful `schur_3x3.setUp`, given the two
scaling vectors `v0` (from `A`, level 0, pre-scale) and `w0` (from the
freshly computed `Smod`, level 1, pre-scale): every derived matrix in
the order of lines 480-566. -/
def schur_3x3.assemble {n1 n2 n3 : ℕ} (c0 c1 : ScaleOpt)
    (P : Op3 n1 n2 n3) (s : schur_3x3 n1 n2 n3) (v0 : PVec n1)
    (w0 : PVec n2) : schur_3x3 n1 n2 n3 :=
  let av := vec_scale c0.val v0
  let Adinv : PMat n1 n1 := Matrix.diagonal av
  let Adinv_Bt := Adinv * P.P12
  let B_Adinv_Bt := P.P21 * Adinv_Bt
  let Smod := schur_3x3.smod_from c0.val v0 P
  let Adinv_Dt := Adinv * P.P13
  let B_Adinv_Dt := P.P21 * Adinv_Dt
  let Tmod := mat_axpy (-1) B_Adinv_Dt P.P23
  let sv := vec_scale c1.val w0
  let Smoddinv : PMat n2 n2 := Matrix.diagonal sv
  let Smoddinv_Tmod := Smoddinv * Tmod
  let Bt_Smoddinv_Tmod := P.P12 * Smoddinv_Tmod
  let Adinv_Bt_Smoddinv_Tmod := Adinv * Bt_Smoddinv_Tmod
  let D_Adinv_Bt_Smoddinv_Tmod := P.P31 * Adinv_Bt_Smoddinv_Tmod
  let DBt := P.P31 * Adinv_Bt
  let E_Smoddinv_Tmod := P.P32 * Smoddinv_Tmod
  let D_Adinv_Dt := P.P31 * Adinv_Dt
  let Wmod := mat_axpy 1 D_Adinv_Bt_Smoddinv_Tmod
    (mat_axpy (-1) E_Smoddinv_Tmod (mat_axpy (-1) D_Adinv_Dt P.P33))
  { A := P.P11, Bt := P.P12, Dt := P.P13, B := P.P21, C := P.P22,
    Et := P.P23, D := P.P31, E := P.P32, R := P.P33,
    adinv_vec := av, Adinv := Adinv,
    smoddinv_vec := sv, Smoddinv := Smoddinv,
    Adinv_Bt := Adinv_Bt, DBt := DBt, B_Adinv_Bt := B_Adinv_Bt,
    Adinv_Dt := Adinv_Dt, B_Adinv_Dt := B_Adinv_Dt,
    D_Adinv_Dt := D_Adinv_Dt, Smod := Smod, Tmod := Tmod,
    Smoddinv_Tmod := Smoddinv_Tmod,
    Bt_Smoddinv_Tmod := Bt_Smoddinv_Tmod,
    Adinv_Bt_Smoddinv_Tmod := Adinv_Bt_Smoddinv_Tmod,
    D_Adinv_Bt_Smoddinv_Tmod := D_Adinv_Bt_Smoddinv_Tmod,
    E_Smoddinv_Tmod := E_Smoddinv_Tmod, Wmod := Wmod,
    ksp_op0 := P.P11, ksp_op1 := Smod, ksp_op2 := Wmod,
    z1 := s.z1, z2 := s.z2, z3 := s.z3 }

def schur_3x3.setUp {n1 n2 n3 : ℕ} (c0 c1 : ScaleOpt) (P : Op3 n1 n2 n3)
    (s : schur_3x3 n1 n2 n3) : Except String (schur_3x3 n1 n2 n3) :=
  match scaling_vec_setup c0 P.P11 with
  | .error e => .error e
  | .ok v0 =>
    match scaling_vec_setup c1 (schur_3x3.smod_from c0.val v0 P) with
    | .error e => .error e
    | .ok w0 => .ok (schur_3x3.assemble c0 c1 P s v0 w0)

/-- `schur_3x3.apply` (lines 579-644): the five-solve forward
elimination / back substitution.  `k0`, `k1`, `k2` are the inner solves
bound to fields 0, 1, 2; the returned list records the field index of
each KSP solve performed, in order. -/
def schur_3x3.apply {n1 n2 n3 : ℕ} (s : schur_3x3 n1 n2 n3)
    (k0 : PVec n1 → PVec n1) (k1 : PVec n2 → PVec n2)
    (k2 : PVec n3 → PVec n3) (x1 : PVec n1) (x2 : PVec n2) (x3 : PVec n3) :
    (PVec n1 × PVec n2 × PVec n3) × List ℕ :=
  let y1 := k0 x1
  let By1 := s.B.mulVec y1
  let z2a := axpy (-1) By1 (axpby 1 0 x2 s.z2)
  let y2a := k1 z2a
  let Dy1 := s.D.mulVec y1
  let DBty2 := s.DBt.mulVec y2a
  let Ey2 := s.E.mulVec y2a
  let z3 := axpy (-1) Ey2 (axpy 1 DBty2 (axpy (-1) Dy1 (axpby 1 0 x3 s.z3)))
  let y3 := k2 z3
  let Tmody3 := s.Tmod.mulVec y3
  let z2b := axpy (-1) Tmody3 (axpy (-1) By1 (axpby 1 0 x2 z2a))
  let y2 := k1 z2b
  let Bty2 := s.Bt.mulVec y2
  let Dty3 := s.Dt.mulVec y3
  let z1 := axpy (-1) Dty3 (axpy (-1) Bty2 (axpby 1 0 x1 s.z1))
  let y1f := k0 z1
  ((y1f, y2, y3), [0, 1, 2, 1, 0])

/-- A `schur_3x3` state with every field zero. -/
def schur_3x3.zero (n1 n2 n3 : ℕ) : schur_3x3 n1 n2 n3 :=
  { A := 0, Bt := 0, Dt := 0, B := 0, C := 0, Et := 0, D := 0, E := 0,
    R := 0, adinv_vec := 0, Adinv := 0, smoddinv_vec := 0, Smoddinv := 0,
    Adinv_Bt := 0, DBt := 0, B_Adinv_Bt := 0, Adinv_Dt := 0,
    B_Adinv_Dt := 0, D_Adinv_Dt := 0, Smod := 0, Tmod := 0,
    Smoddinv_Tmod := 0, Bt_Smoddinv_Tmod := 0, Adinv_Bt_Smoddinv_Tmod := 0,
    D_Adinv_Bt_Smoddinv_Tmod := 0, E_Smoddinv_Tmod := 0, Wmod := 0,
    ksp_op0 := 0, ksp_op1 := 0, ksp_op2 := 0, z1 := 0, z2 := 0, z3 := 0 }

/-- The 4-field global operator: the 3-field part plus the blocks
coupling to the outer field (`Ft` is extracted row-blockwise over the
union index set `iset_012`, so it is the triple `(P14, P24, P34)`;
`F` likewise is `(P41, P42, P43)`; `G` is `P44`). -/
structure Op4 (n1 n2 n3 n4 : ℕ) extends Op3 n1 n2 n3 where
  P14 : PMat n1 n4
  P24 : PMat n2 n4
  P34 : PMat n3 n4
  P41 : PMat n4 n1
  P42 : PMat n4 n2
  P43 : PMat n4 n3
  P44 : PMat n4 n4
deriving DecidableEq

/-- Instance state of the `schur_bgssym_4x4` / `schur_bgs_4x4`
preconditioners: the inner `schur_3x3` state plus the outer blocks. -/
structure schur_bgssym_4x4 (n1 n2 n3 n4 : ℕ)
    extends schur_3x3 n1 n2 n3 where
  G : PMat n4 n4
  Ft1 : PMat n1 n4
  Ft2 : PMat n2 n4
  Ft3 : PMat n3 n4
  F1 : PMat n4 n1
  F2 : PMat n4 n2
  F3 : PMat n4 n3
  ksp_op3 : PMat n4 n4
  z123a : PVec n1
  z123b : PVec n2
  z123c : PVec n3
  z4 : PVec n4
deriving DecidableEq

/-- `schur_bgssym_4x4.setUp` (lines 688-696): the inherited
`schur_3x3.setUp`, then re-extraction of `G`, `Ft`, `F` and rebinding
of the fourth field KSP to `G`. -/
def schur_bgssym_4x4.setUp {n1 n2 n3 n4 : ℕ} (c0 c1 : ScaleOpt)
    (P : Op4 n1 n2 n3 n4) (s : schur_bgssym_4x4 n1 n2 n3 n4) :
    Except String (schur_bgssym_4x4 n1 n2 n3 n4) :=
  match schur_3x3.setUp c0 c1 P.toOp3 s.toschur_3x3 with
  | .error e => .error e
  | .ok t =>
    .ok { toschur_3x3 := t, G := P.P44,
          Ft1 := P.P14, Ft2 := P.P24, Ft3 := P.P34,
          F1 := P.P41, F2 := P.P42, F3 := P.P43,
          ksp_op3 := P.P44,
          z123a := s.z123a, z123b := s.z123b, z123c := s.z123c,
          z4 := s.z4 }

/-- `schur_bgs_4x4.setUp` (lines 744-751): the inherited symmetric
`setUp`, then a (redundant) re-extraction of `G` and `Ft` and a second
rebinding of the fourth field KSP. -/
def schur_bgs_4x4.setUp {n1 n2 n3 n4 : ℕ} (c0 c1 : ScaleOpt)
    (P : Op4 n1 n2 n3 n4) (s : schur_bgssym_4x4 n1 n2 n3 n4) :
    Except String (schur_bgssym_4x4 n1 n2 n3 n4) :=
  match schur_bgssym_4x4.setUp c0 c1 P s with
  | .error e => .error e
  | .ok t =>
    .ok { t with
            G := P.P44
            Ft1 := P.P14
            Ft2 := P.P24
            Ft3 := P.P34
            ksp_op3 := P.P44 }

/-- `schur_bgssym_4x4.apply` (lines 700-739): solve `G` against `x4`,
correct the composite right-hand side by `Ft y4`, run the inherited
3-field apply on it, correct `z4 = x4 - F y123` and solve `G` a second
time.  The trace extends the inner trace with the outer field index 3
on both sides. -/
def schur_bgssym_4x4.apply {n1 n2 n3 n4 : ℕ}
    (s : schur_bgssym_4x4 n1 n2 n3 n4)
    (k0 : PVec n1 → PVec n1) (k1 : PVec n2 → PVec n2)
    (k2 : PVec n3 → PVec n3) (k3 : PVec n4 → PVec n4)
    (x1 : PVec n1) (x2 : PVec n2) (x3 : PVec n3) (x4 : PVec n4) :
    ((PVec n1 × PVec n2 × PVec n3) × PVec n4) × List ℕ :=
  let y4 := k3 x4
  let za := axpy (-1) (s.Ft1.mulVec y4) (axpby 1 0 x1 s.z123a)
  let zb := axpy (-1) (s.Ft2.mulVec y4) (axpby 1 0 x2 s.z123b)
  let zc := axpy (-1) (s.Ft3.mulVec y4) (axpby 1 0 x3 s.z123c)
  let inner := schur_3x3.apply s.toschur_3x3 k0 k1 k2 za zb zc
  let y123 := inner.1
  let Fy123 := s.F1.mulVec y123.1 + s.F2.mulVec y123.2.1
    + s.F3.mulVec y123.2.2
  let z4 := axpy (-1) Fy123 (axpby 1 0 x4 s.z4)
  let y4f := k3 z4
  ((y123, y4f), 3 :: inner.2 ++ [3])

/-- `schur_bgs_4x4.apply` (lines 754-781): the one-sided variant — the
initial `G` solve, the single composite 3-field solve, and no second
`G` correction; `y4` stays the result of the initial solve. -/
def schur_bgs_4x4.apply {n1 n2 n3 n4 : ℕ}
    (s : schur_bgssym_4x4 n1 n2 n3 n4)
    (k0 : PVec n1 → PVec n1) (k1 : PVec n2 → PVec n2)
    (k2 : PVec n3 → PVec n3) (k3 : PVec n4 → PVec n4)
    (x1 : PVec n1) (x2 : PVec n2) (x3 : PVec n3) (x4 : PVec n4) :
    ((PVec n1 × PVec n2 × PVec n3) × PVec n4) × List ℕ :=
  let y4 := k3 x4
  let za := axpy (-1) (s.Ft1.mulVec y4) (axpby 1 0 x1 s.z123a)
  let zb := axpy (-1) (s.Ft2.mulVec y4) (axpby 1 0 x2 s.z123b)
  let zc := axpy (-1) (s.Ft3.mulVec y4) (axpby 1 0 x3 s.z123c)
  let inner := schur_3x3.apply s.toschur_3x3 k0 k1 k2 za zb zc
  ((inner.1, y4), 3 :: inner.2)

/-- Instance state of the `jacobi_2x2` preconditioner.  Its
`init_mat_vec` extracts only `A` and `C` and — unlike every other
scheme — never creates the scratch vectors `x1`, `x2`, `y1`, `y2`
that its `apply` dereferences; attribute presence is therefore modelled
with `Option`. -/
structure jacobi_2x2 (n1 n2 : ℕ) where
  A : PMat n1 n1
  C : PMat n2 n2
  ksp_op0 : PMat n1 n1
  ksp_op1 : PMat n2 n2
  x1 : Option (PVec n1)
  x2 : Option (PVec n2)
  y1 : Option (PVec n1)
  y2 : Option (PVec n2)
deriving DecidableEq

/-- `jacobi_2x2.init_mat_vec` (lines 912-921) together with the KSP
operator binding done in `block_precond.create`: only `A` and `C` are
extracted; no scratch vector is created. -/
def jacobi_2x2.create {n1 n2 : ℕ} (P : Op2 n1 n2) : jacobi_2x2 n1 n2 :=
  { A := P.P11, C := P.P22, ksp_op0 := P.P11, ksp_op1 := P.P22,
    x1 := none, x2 := none, y1 := none, y2 := none }

/-- `jacobi_2x2.setUp` (lines 924-937): re-extract `A` and `C` and
rebind the field KSPs; the (absent) scratch vectors are untouched. -/
def jacobi_2x2.setUp {n1 n2 : ℕ} (P : Op2 n1 n2) (s : jacobi_2x2 n1 n2) :
    jacobi_2x2 n1 n2 :=
  { s with A := P.P11, C := P.P22, ksp_op0 := P.P11, ksp_op1 := P.P22 }

/-- `jacobi_2x2.apply` (lines 941-961): `x.getSubVector(iset[0],
subvec=self.x1)` first reads the attribute `self.x1`; when the
attribute was never created this raises `AttributeError` before any
solve.  Otherwise the two fields are solved independently. -/
def jacobi_2x2.apply {n1 n2 : ℕ} (s : jacobi_2x2 n1 n2)
    (k0 : PVec n1 → PVec n1) (k1 : PVec n2 → PVec n2)
    (x1 : PVec n1) (x2 : PVec n2) :
    Except String ((PVec n1 × PVec n2) × List ℕ) :=
  match s.x1 with
  | none => .error "AttributeError: jacobi_2x2 object has no attribute x1"
  | some _ =>
    match s.x2 with
    | none => .error "AttributeError: jacobi_2x2 object has no attribute x2"
    | some _ =>
      match s.y1 with
      | none => .error "AttributeError: jacobi_2x2 object has no attribute y1"
      | some _ =>
        match s.y2 with
        | none =>
          .error "AttributeError: jacobi_2x2 object has no attribute y2"
        | some _ =>
          let y1 := k0 x1
          let y2 := k1 x2
          .ok ((y1, y2), [0, 1])

/-- The experimental fixed-iteration stationary smoother.  Its Python
constructor stores `niter` and then unconditionally raises. -/
structure stat_iter_fixed where
  niter : ℕ
deriving DecidableEq, Repr

/-- `stat_iter_fixed.__init__` (lines 132-136): raises
`RuntimeError("Experimental. You should not be here!")` after storing
`niter`, so no instance is ever returned. -/
def stat_iter_fixed.init (niter : ℕ) : Except String stat_iter_fixed :=
  let _ := ({ niter := niter } : stat_iter_fixed)
  .error "Experimental. You should not be here!"

/-- The Schur-complement-reduction variant of the experimental
smoother. -/
structure stat_iter_fixed_scr where
  niter : ℕ
deriving DecidableEq, Repr

/-- `stat_iter_fixed_scr.__init__` (lines 173-178): stores `niter` and
the sub-KSP reference, then unconditionally raises. -/
def stat_iter_fixed_scr.init (niter : ℕ) :
    Except String stat_iter_fixed_scr :=
  let _ := ({ niter := niter } : stat_iter_fixed_scr)
  .error "Experimental. You should not be here!"

/-- One entry of the per-field `precond_fields` configuration list
(only the keys the `create` control flow reads). -/
structure PrecField where
  prec : String
  solve : Option String
  py_solver : Option String
  stat_iter : Option ℕ
deriving DecidableEq, Repr

/-- A per-field entry with only `prec` set, every optional key absent. -/
def PrecField.ofPrec (p : String) : PrecField :=
  { prec := p, solve := none, py_solver := none, stat_iter := none }

/-- The categories of linear-algebra work named by the spec sentence on
the exit/failure surface: submatrix extraction, matrix products, and
field solves. -/
inductive LAEvent where
  | extract : LAEvent
  | matprod : LAEvent
  | solve : LAEvent
deriving DecidableEq, Repr

/-- The per-field option-setting step of `block_precond.create`
(lines 65-114): dispatch on the `prec` key; for `amg` with
`solve = "python"` dispatch on `py_solver` (whose absence is a
`KeyError`), constructing the experimental smoother, whose constructor
raises; unknown `prec` values are a `ValueError`. -/
def ksp_field_options (f : PrecField) : Except String Unit :=
  if f.prec = "amg" then
    let solvetype := f.solve.getD "preonly"
    if solvetype = "python" then
      match f.py_solver with
      | none => .error "KeyError: py_solver"
      | some ps =>
        if ps = "stat_iter_fixed" then
          match stat_iter_fixed.init (f.stat_iter.getD 1) with
          | .error e => .error e
          | .ok _ => .ok ()
        else if ps = "stat_iter_fixed_scr" then
          match stat_iter_fixed_scr.init (f.stat_iter.getD 1) with
          | .error e => .error e
          | .ok _ => .ok ()
        else .error "Unknown Python solver option!"
    else .ok ()
  else if f.prec = "direct" then .ok ()
  else .error "Currently, only either amg or direct are supported as field-specific preconditioner."

/-- `block_precond.create` for the `schur_2x2` scheme, instrumented
with the list of linear-algebra operations performed before returning
or raising: `check_field_size` (an assertion, no linear algebra), then
`schur_2x2.init_mat_vec` (lines 241-284: four submatrix extractions,
then the scaling-mode branch which may raise, then the two
matrix-matrix products forming `B Adinv Bt`), then the per-field KSP
option loop (which may raise on a bad `prec`), then the operator
bindings.  On error the operations already performed are reported
alongside. -/
def schur_2x2.create_traced {n1 n2 : ℕ} (fields : List PrecField)
    (c0 : ScaleOpt) (P : Op2 n1 n2) :
    List LAEvent × Except String (schur_2x2 n1 n2) :=
  match fields with
  | [f0, f1] =>
    let ev0 : List LAEvent := [.extract, .extract, .extract, .extract]
    match scaling_vec_init c0 P.P11 with
    | .error e => (ev0, .error e)
    | .ok av0 =>
      let Adinv : PMat n1 n1 := 1
      let Adinv_Bt := Adinv * P.P12
      let B_Adinv_Bt := P.P21 * Adinv_Bt
      let Smod := mat_axpy (-1) B_Adinv_Bt P.P22
      let ev1 := ev0 ++ [LAEvent.matprod, LAEvent.matprod]
      let st : schur_2x2 n1 n2 :=
        { A := P.P11, Bt := P.P12, B := P.P21, C := P.P22,
          adinv_vec := av0, Adinv := Adinv, Adinv_Bt := Adinv_Bt,
          B_Adinv_Bt := B_Adinv_Bt, Smod := Smod,
          ksp_op0 := P.P11, ksp_op1 := Smod, z1 := 0, z2 := 0 }
      match ksp_field_options f0 with
      | .error e => (ev1, .error e)
      | .ok _ =>
        match ksp_field_options f1 with
        | .error e => (ev1, .error e)
        | .ok _ => (ev1, .ok st)
  | _ => ([], .error "AssertionError: nfields == 2")

/-- The state recorded by `block_precond.__init__` that later steps
read: the field count and the configuration lists. -/
structure block_precond where
  nfields : ℕ
  precond_fields : List PrecField
  schur_block_scaling : List ScaleOpt
deriving DecidableEq, Repr

/-- `block_precond.__init__` (lines 25-44): `nfields` is set to
`len(precond_fields)` and `assert(len(iset) == nfields)` raises
whenever the number of index sets differs from it, before anything
else happens. -/
def block_precond.init (iset_len : ℕ) (precond_fields : List PrecField)
    (schur_block_scaling : List ScaleOpt) : Except String block_precond :=
  let nfields := precond_fields.length
  if iset_len = nfields then
    .ok { nfields := nfields, precond_fields := precond_fields,
          schur_block_scaling := schur_block_scaling }
  else .error "AssertionError: len(iset) == nfields"

lemma mat_axpy_neg_one {m n : ℕ} (X Y : PMat m n) :
    mat_axpy (-1) X Y = Y - X := by
  simp [mat_axpy, neg_one_smul, ← sub_eq_add_neg]

/-- C2: after a successful `setUp` of the 2-field scheme with scaling
mode `diag` or `rowsum`, the stored Schur-complement matrix satisfies
`Smod = C - B * Adinv * Bt` exactly, where `Adinv` is the diagonal
matrix of the reciprocals of the main diagonal of `A` (mode `diag`) or
of the absolute row sums of `A` (mode `rowsum`), scaled by the
configured factor — for arbitrary blocks whose diagonal / row-sum
entries are nonzero. -/
theorem C2_schur_2x2_setUp_Smod {n1 n2 : ℕ} (c0 : ScaleOpt)
    (P : Op2 n1 n2) (s s' : schur_2x2 n1 n2)
    (hmode : c0.type = "diag" ∨ c0.type = "rowsum")
    (_hnz : scale_nonzero c0 P.P11)
    (hok : schur_2x2.setUp c0 P s = .ok s') :
    s'.Smod = P.P22 - P.P21 * spec_adinv c0 P.P11 * P.P12 := by
  rcases hmode with h | h
  · simp [schur_2x2.setUp, scaling_vec_setup, h, Except.map] at hok
    subst hok
    simp [mat_axpy_neg_one, spec_adinv, h, Matrix.mul_assoc]
    rfl
  · simp [schur_2x2.setUp, scaling_vec_setup, h, Except.map] at hok
    subst hok
    simp [mat_axpy_neg_one, spec_adinv, h, Matrix.mul_assoc]
    rfl

/-- C1: for every completed setup of the 2-field scheme and every input
`(x1, x2)`, `apply` computes exactly the claimed sequence — solve
`A y1 = x1` with field solver 0, form `z2 = x2 - B y1`, solve
`Smod y2 = z2` with field solver 1, form `z1 = x1 - Bt y2`, solve
`A y1 = z1` with field solver 0 again, the second `A`-solve producing
the final `y1` — and the two field solvers are indeed bound to `A` and
`Smod`.  The solve trace `[0, 1, 0]` records the three KSP solves in
order. -/
theorem C1_schur_2x2_apply_sequence {n1 n2 : ℕ} (c0 : ScaleOpt)
    (P : Op2 n1 n2) (s s' : schur_2x2 n1 n2)
    (hok : schur_2x2.setUp c0 P s = .ok s')
    (k0 : PVec n1 → PVec n1) (k1 : PVec n2 → PVec n2)
    (x1 : PVec n1) (x2 : PVec n2) :
    schur_2x2.apply s' k0 k1 x1 x2 =
      (let y1a := k0 x1
       let z2 := x2 - s'.B.mulVec y1a
       let y2 := k1 z2
       let z1 := x1 - s'.Bt.mulVec y2
       let y1 := k0 z1
       ((y1, y2), [0, 1, 0])) ∧
    s'.ksp_op0 = s'.A ∧ s'.ksp_op1 = s'.Smod := by
  refine ⟨?_, ?_⟩
  · simp [schur_2x2.apply, axpy, axpby, neg_one_smul, ← sub_eq_add_neg]
  · cases hv : scaling_vec_setup c0 P.P11 with
    | error e => simp [schur_2x2.setUp, hv, Except.map] at hok
    | ok v =>
      simp [schur_2x2.setUp, hv, Except.map] at hok
      subst hok
      exact ⟨rfl, rfl⟩

/-- A concrete `diag`-mode scaling option used by the witnesses. -/
def c0ex : ScaleOpt := { type := "diag", val := 1 }

/-- A concrete 2-field operator with 1-by-1 blocks used by the
witnesses: `A = (2)`, `Bt = (1)`, `B = (1)`, `C = (3)`. -/
def P2ex : Op2 1 1 :=
  { P11 := fun _ _ => 2, P12 := fun _ _ => 1,
    P21 := fun _ _ => 1, P22 := fun _ _ => 3 }

/-- The state produced by `schur_2x2.setUp c0ex P2ex` from the zero
state (numerically `adinv_vec = (1/2)` and
`Smod = C - B (1/2) Bt = (5/2)`). -/
def s2ex : schur_2x2 1 1 :=
  { A := P2ex.P11, Bt := P2ex.P12, B := P2ex.P21, C := P2ex.P22,
    adinv_vec := vec_scale c0ex.val (vec_reciprocal (getDiagonal P2ex.P11)),
    Adinv := Matrix.diagonal
      (vec_scale c0ex.val (vec_reciprocal (getDiagonal P2ex.P11))),
    Adinv_Bt := Matrix.diagonal
      (vec_scale c0ex.val (vec_reciprocal (getDiagonal P2ex.P11))) * P2ex.P12,
    B_Adinv_Bt := P2ex.P21 * (Matrix.diagonal
      (vec_scale c0ex.val (vec_reciprocal (getDiagonal P2ex.P11))) * P2ex.P12),
    Smod := mat_axpy (-1) (P2ex.P21 * (Matrix.diagonal
      (vec_scale c0ex.val (vec_reciprocal (getDiagonal P2ex.P11))) *
        P2ex.P12)) P2ex.P22,
    ksp_op0 := P2ex.P11,
    ksp_op1 := mat_axpy (-1) (P2ex.P21 * (Matrix.diagonal
      (vec_scale c0ex.val (vec_reciprocal (getDiagonal P2ex.P11))) *
        P2ex.P12)) P2ex.P22,
    z1 := 0, z2 := 0 }

/-- C2 witness: the concrete `diag`-mode setup `s2ex` satisfies every
hypothesis of the Schur-complement identity, which is instantiated
on it. -/
theorem C2_schur_2x2_setUp_Smod_witness :
    (c0ex.type = "diag" ∨ c0ex.type = "rowsum") ∧
    scale_nonzero c0ex P2ex.P11 ∧
    schur_2x2.setUp c0ex P2ex (schur_2x2.zero 1 1) = .ok s2ex ∧
    s2ex.Smod = P2ex.P22 - P2ex.P21 * spec_adinv c0ex P2ex.P11 * P2ex.P12 :=
  ⟨Or.inl rfl, by decide, by rfl,
    C2_schur_2x2_setUp_Smod c0ex P2ex (schur_2x2.zero 1 1) s2ex
      (Or.inl rfl) (by decide) (by rfl)⟩

/-- C1 witness: on the concrete completed setup `s2ex`, with identity
inner solves and input `(1, 1)`, `apply` performs the claimed sequence
(in particular the solve trace is `[0, 1, 0]`). -/
theorem C1_schur_2x2_apply_sequence_witness :
    schur_2x2.setUp c0ex P2ex (schur_2x2.zero 1 1) = .ok s2ex ∧
    (schur_2x2.apply s2ex id id (fun _ => 1) (fun _ => 1)).2 = [0, 1, 0] := by
  have h := C1_schur_2x2_apply_sequence c0ex P2ex (schur_2x2.zero 1 1)
    s2ex (by rfl) id id (fun _ => 1) (fun _ => 1)
  exact ⟨by rfl, by rw [h.1]⟩

lemma spec_adinv_of_scaling {n : ℕ} (opt : ScaleOpt) (M : PMat n n)
    (v : PVec n) (h : scaling_vec_setup opt M = .ok v) :
    Matrix.diagonal (vec_scale opt.val v) = spec_adinv opt M := by
  by_cases h1 : opt.type = "diag"
  · simp [scaling_vec_setup, spec_adinv, h1] at h ⊢
    subst h
    intro i; rfl
  · by_cases h2 : opt.type = "rowsum"
    · simp [scaling_vec_setup, spec_adinv, h1, h2] at h ⊢
      subst h
      intro i; rfl
    · by_cases h3 : opt.type = "none"
      · simp [scaling_vec_setup, spec_adinv, h1, h2, h3] at h ⊢
        subst h
        intro i
        simp [vec_scale]
      · simp [scaling_vec_setup, h1, h2, h3] at h

/-- C3: after a successful `setUp` of the 3-field scheme, the stored
derived matrices satisfy `Tmod = Et - B * Adinv * Dt` and
`Wmod = R - D * Adinv * Dt - E * Smoddinv * Tmod
+ D * Adinv * Bt * Smoddinv * Tmod`, where `Adinv` is the approximate
inverse built from `A` at scaling level 0 and `Smoddinv` is the second
approximate inverse built from the freshly computed `Smod` at scaling
level 1 — whenever the relevant diagonal / row-sum entries are
nonzero. -/
theorem C3_schur_3x3_setUp_Tmod_Wmod {n1 n2 n3 : ℕ} (c0 c1 : ScaleOpt)
    (P : Op3 n1 n2 n3) (s s' : schur_3x3 n1 n2 n3)
    (_hnz0 : scale_nonzero c0 P.P11)
    (_hnz1 : scale_nonzero c1 s'.Smod)
    (hok : schur_3x3.setUp c0 c1 P s = .ok s') :
    s'.Adinv = spec_adinv c0 P.P11 ∧
    s'.Smoddinv = spec_adinv c1 s'.Smod ∧
    s'.Tmod = s'.Et - s'.B * s'.Adinv * s'.Dt ∧
    s'.Wmod = s'.R - s'.D * s'.Adinv * s'.Dt
      - s'.E * s'.Smoddinv * s'.Tmod
      + s'.D * s'.Adinv * s'.Bt * s'.Smoddinv * s'.Tmod := by
  cases hv : scaling_vec_setup c0 P.P11 with
  | error e => simp [schur_3x3.setUp, hv] at hok
  | ok v =>
    cases hw : scaling_vec_setup c1 (schur_3x3.smod_from c0.val v P) with
    | error e => simp [schur_3x3.setUp, hv, hw] at hok
    | ok w =>
      simp only [schur_3x3.setUp, hv, hw, Except.ok.injEq] at hok
      subst hok
      refine ⟨?_, ?_, ?_, ?_⟩
      · simpa [schur_3x3.assemble] using
          spec_adinv_of_scaling c0 P.P11 v hv
      · simpa [schur_3x3.assemble] using
          spec_adinv_of_scaling c1 (schur_3x3.smod_from c0.val v P) w hw
      · simp [schur_3x3.assemble, mat_axpy_neg_one, Matrix.mul_assoc]
      · simp [schur_3x3.assemble, mat_axpy, mat_axpy_neg_one, one_smul,
          Matrix.mul_assoc]
        abel

/-- A concrete `none`-mode scaling option for the second Schur level of
the witnesses. -/
def c1ex : ScaleOpt := { type := "none", val := 1 }

/-- A concrete 3-field operator with 1-by-1 blocks used by the
witnesses. -/
def P3ex : Op3 1 1 1 :=
  { P11 := fun _ _ => 2, P12 := fun _ _ => 1, P13 := fun _ _ => 1,
    P21 := fun _ _ => 1, P22 := fun _ _ => 3, P23 := fun _ _ => 1,
    P31 := fun _ _ => 1, P32 := fun _ _ => 1, P33 := fun _ _ => 4 }

/-- The state produced by `schur_3x3.setUp c0ex c1ex P3ex` from the
zero state. -/
def s3ex : schur_3x3 1 1 1 :=
  match schur_3x3.setUp c0ex c1ex P3ex (schur_3x3.zero 1 1 1) with
  | .ok t => t
  | .error _ => schur_3x3.zero 1 1 1

/-- C3 witness: the hypotheses hold for the concrete `diag`/`none`
setup `s3ex`, on which the derived-matrix identities are
instantiated. -/
theorem C3_schur_3x3_setUp_Tmod_Wmod_witness :
    scale_nonzero c0ex P3ex.P11 ∧
    scale_nonzero c1ex s3ex.Smod ∧
    schur_3x3.setUp c0ex c1ex P3ex (schur_3x3.zero 1 1 1) = .ok s3ex ∧
    s3ex.Tmod = s3ex.Et - s3ex.B * s3ex.Adinv * s3ex.Dt :=
  ⟨by decide, by decide, by rfl,
    (C3_schur_3x3_setUp_Tmod_Wmod c0ex c1ex P3ex (schur_3x3.zero 1 1 1)
      s3ex (by decide) (by decide) (by rfl)).2.2.1⟩

/-- C4: for every completed setup of the 3-field scheme, `apply`
performs exactly five field solves in the fixed order `A`, `Smod`,
`Wmod`, `Smod`, `A` (the trace is `[0, 1, 2, 1, 0]`), with the
intermediate right-hand sides corrected by products with `B`, `D`,
`DBt`, `E`, `Tmod`, `Bt`, `Dt` between solves, the final output
assembled from the last three solves, and each field solver bound to
its block (`A`, `Smod`, `Wmod`). -/
theorem C4_schur_3x3_apply_sequence {n1 n2 n3 : ℕ} (c0 c1 : ScaleOpt)
    (P : Op3 n1 n2 n3) (s s' : schur_3x3 n1 n2 n3)
    (hok : schur_3x3.setUp c0 c1 P s = .ok s')
    (k0 : PVec n1 → PVec n1) (k1 : PVec n2 → PVec n2)
    (k2 : PVec n3 → PVec n3) (x1 : PVec n1) (x2 : PVec n2) (x3 : PVec n3) :
    schur_3x3.apply s' k0 k1 k2 x1 x2 x3 =
      (let y1a := k0 x1
       let y2a := k1 (x2 - s'.B.mulVec y1a)
       let y3 := k2 (x3 - s'.D.mulVec y1a + s'.DBt.mulVec y2a
         - s'.E.mulVec y2a)
       let y2 := k1 (x2 - s'.B.mulVec y1a - s'.Tmod.mulVec y3)
       let y1 := k0 (x1 - s'.Bt.mulVec y2 - s'.Dt.mulVec y3)
       ((y1, y2, y3), [0, 1, 2, 1, 0])) ∧
    s'.ksp_op0 = s'.A ∧ s'.ksp_op1 = s'.Smod ∧ s'.ksp_op2 = s'.Wmod := by
  refine ⟨?_, ?_⟩
  · simp [schur_3x3.apply, axpy, axpby, neg_one_smul, one_smul,
      ← sub_eq_add_neg]
  · cases hv : scaling_vec_setup c0 P.P11 with
    | error e => simp [schur_3x3.setUp, hv] at hok
    | ok v =>
      cases hw : scaling_vec_setup c1 (schur_3x3.smod_from c0.val v P) with
      | error e => simp [schur_3x3.setUp, hv, hw] at hok
      | ok w =>
        simp only [schur_3x3.setUp, hv, hw, Except.ok.injEq] at hok
        subst hok
        exact ⟨rfl, rfl, rfl⟩

/-- C4 witness: the solve trace on the concrete completed setup `s3ex`
with identity inner solves is `[0, 1, 2, 1, 0]`. -/
theorem C4_schur_3x3_apply_sequence_witness :
    schur_3x3.setUp c0ex c1ex P3ex (schur_3x3.zero 1 1 1) = .ok s3ex ∧
    (schur_3x3.apply s3ex id id id (fun _ => 1) (fun _ => 1)
      (fun _ => 1)).2 = [0, 1, 2, 1, 0] := by
  have h := C4_schur_3x3_apply_sequence c0ex c1ex P3ex
    (schur_3x3.zero 1 1 1) s3ex (by rfl) id id id (fun _ => 1)
    (fun _ => 1) (fun _ => 1)
  exact ⟨by rfl, by rw [h.1]⟩

/-- C8: setup is idempotent under a no-op operator change — for both
the 2-field and the 3-field scheme, re-running `setUp` on the state a
first successful `setUp` produced, with the unchanged operator and
configuration, succeeds and returns exactly that state (identical
Schur-complement matrices `Smod` / `Tmod` / `Wmod` and identical
field-solver operator bindings). -/
theorem C8_setUp_idempotent {n1 n2 m1 m2 m3 : ℕ} (c0 : ScaleOpt)
    (P : Op2 n1 n2) (s s' : schur_2x2 n1 n2) (d0 d1 : ScaleOpt)
    (Q : Op3 m1 m2 m3) (t t' : schur_3x3 m1 m2 m3)
    (hok2 : schur_2x2.setUp c0 P s = .ok s')
    (hok3 : schur_3x3.setUp d0 d1 Q t = .ok t') :
    schur_2x2.setUp c0 P s' = .ok s' ∧
    schur_3x3.setUp d0 d1 Q t' = .ok t' := by
  constructor
  · cases hv : scaling_vec_setup c0 P.P11 with
    | error e => simp [schur_2x2.setUp, hv, Except.map] at hok2
    | ok v =>
      simp [schur_2x2.setUp, hv, Except.map] at hok2
      subst hok2
      simp [schur_2x2.setUp, hv, Except.map]
  · cases hv : scaling_vec_setup d0 Q.P11 with
    | error e => simp [schur_3x3.setUp, hv] at hok3
    | ok v =>
      cases hw : scaling_vec_setup d1 (schur_3x3.smod_from d0.val v Q) with
      | error e => simp [schur_3x3.setUp, hv, hw] at hok3
      | ok w =>
        simp only [schur_3x3.setUp, hv, hw, Except.ok.injEq] at hok3
        subst hok3
        simp only [schur_3x3.setUp, hv, hw]
        rfl

/-- C8 witness: idempotence instantiated on the concrete completed
setups `s2ex` and `s3ex`. -/
theorem C8_setUp_idempotent_witness :
    schur_2x2.setUp c0ex P2ex s2ex = .ok s2ex ∧
    schur_3x3.setUp c0ex c1ex P3ex s3ex = .ok s3ex :=
  C8_setUp_idempotent c0ex P2ex (schur_2x2.zero 1 1) s2ex c0ex c1ex
    P3ex (schur_3x3.zero 1 1 1) s3ex (by rfl) (by rfl)

/-- C5: the one-sided 4-field scheme — (a) its `setUp` produces exactly
the same state as the symmetric variant for every configuration,
operator and state; (b) its `apply` performs exactly one `G` solve
(against `x4`) and one composite 3-field solve against
`x123 - Ft y4`, with no second `G` solve after the composite solve
(trace `[3, 0, 1, 2, 1, 0]`, one occurrence of field 3); (c) the
symmetric variant additionally corrects `z4 = x4 - F y123` and solves
`G` a second time (trace `[3, 0, 1, 2, 1, 0, 3]`, two occurrences of
field 3). -/
lemma corr_step {n : ℕ} (w x z : PVec n) :
    axpy (-1) w (axpby 1 0 x z) = x - w := by
  simp [axpy, axpby, neg_one_smul, ← sub_eq_add_neg]

lemma schur_3x3.apply_trace {n1 n2 n3 : ℕ} (s : schur_3x3 n1 n2 n3)
    (k0 : PVec n1 → PVec n1) (k1 : PVec n2 → PVec n2)
    (k2 : PVec n3 → PVec n3) (x1 : PVec n1) (x2 : PVec n2) (x3 : PVec n3) :
    (schur_3x3.apply s k0 k1 k2 x1 x2 x3).2 = [0, 1, 2, 1, 0] := rfl

theorem C5_schur_bgs_4x4_one_sided {n1 n2 n3 n4 : ℕ} :
    (∀ (c0 c1 : ScaleOpt) (P : Op4 n1 n2 n3 n4)
       (s : schur_bgssym_4x4 n1 n2 n3 n4),
       schur_bgs_4x4.setUp c0 c1 P s = schur_bgssym_4x4.setUp c0 c1 P s) ∧
    (∀ (s : schur_bgssym_4x4 n1 n2 n3 n4) (k0 : PVec n1 → PVec n1)
       (k1 : PVec n2 → PVec n2) (k2 : PVec n3 → PVec n3)
       (k3 : PVec n4 → PVec n4) (x1 : PVec n1) (x2 : PVec n2)
       (x3 : PVec n3) (x4 : PVec n4),
       schur_bgs_4x4.apply s k0 k1 k2 k3 x1 x2 x3 x4 =
         (let y4 := k3 x4
          let inner := schur_3x3.apply s.toschur_3x3 k0 k1 k2
            (x1 - s.Ft1.mulVec y4) (x2 - s.Ft2.mulVec y4)
            (x3 - s.Ft3.mulVec y4)
          ((inner.1, y4), [3, 0, 1, 2, 1, 0])) ∧
       (schur_bgs_4x4.apply s k0 k1 k2 k3 x1 x2 x3 x4).2.count 3 = 1) ∧
    (∀ (s : schur_bgssym_4x4 n1 n2 n3 n4) (k0 : PVec n1 → PVec n1)
       (k1 : PVec n2 → PVec n2) (k2 : PVec n3 → PVec n3)
       (k3 : PVec n4 → PVec n4) (x1 : PVec n1) (x2 : PVec n2)
       (x3 : PVec n3) (x4 : PVec n4),
       schur_bgssym_4x4.apply s k0 k1 k2 k3 x1 x2 x3 x4 =
         (let y4 := k3 x4
          let inner := schur_3x3.apply s.toschur_3x3 k0 k1 k2
            (x1 - s.Ft1.mulVec y4) (x2 - s.Ft2.mulVec y4)
            (x3 - s.Ft3.mulVec y4)
          let y123 := inner.1
          let z4 := x4 - (s.F1.mulVec y123.1 + s.F2.mulVec y123.2.1
            + s.F3.mulVec y123.2.2)
          ((y123, k3 z4), [3, 0, 1, 2, 1, 0, 3])) ∧
       (schur_bgssym_4x4.apply s k0 k1 k2 k3 x1 x2 x3 x4).2.count 3 = 2) := by
  refine ⟨?_, ?_, ?_⟩
  · intro c0 c1 P s
    cases hs3 : schur_3x3.setUp c0 c1 P.toOp3 s.toschur_3x3 with
    | error e =>
      simp [schur_bgs_4x4.setUp, schur_bgssym_4x4.setUp, hs3]
    | ok t3 =>
      simp [schur_bgs_4x4.setUp, schur_bgssym_4x4.setUp, hs3]
  · intro s k0 k1 k2 k3 x1 x2 x3 x4
    constructor
    · simp only [schur_bgs_4x4.apply, corr_step]
      rfl
    · simp only [schur_bgs_4x4.apply, schur_3x3.apply_trace]
      rfl
  · intro s k0 k1 k2 k3 x1 x2 x3 x4
    constructor
    · simp only [schur_bgssym_4x4.apply, corr_step]
      rfl
    · simp only [schur_bgssym_4x4.apply, schur_3x3.apply_trace]
      rfl

/-- C6: the `jacobi_2x2` scheme cannot perform its separable apply at
all — `init_mat_vec` (lines 912-921) never creates the scratch vectors
`x1`, `x2`, `y1`, `y2`, and `apply` (line 944) dereferences `self.x1`
first, so every `apply` call after `create` and `setUp` raises
`AttributeError` before any solve, for every operator and input. -/
theorem C6_jacobi_2x2_apply_attribute_error {n1 n2 : ℕ} (P Q : Op2 n1 n2)
    (k0 : PVec n1 → PVec n1) (k1 : PVec n2 → PVec n2)
    (x1 : PVec n1) (x2 : PVec n2) :
    jacobi_2x2.apply (jacobi_2x2.setUp Q (jacobi_2x2.create P)) k0 k1 x1 x2 =
      .error "AttributeError: jacobi_2x2 object has no attribute x1" := by
  rfl

/-- C7 counterexample: with a valid field count and scaling mode but an
unknown per-field `prec` value (`"ilu"`), `create` does raise the fatal
configuration error, but only after the four submatrix extractions and
the two matrix-matrix products of `init_mat_vec` have been performed —
refuting the claim that the error comes before any linear-algebra
work. -/
theorem C7_counterexample_prec_error_after_work :
    (schur_2x2.create_traced
        [PrecField.ofPrec "ilu", PrecField.ofPrec "ilu"] c0ex P2ex).2 =
      .error "Currently, only either amg or direct are supported as field-specific preconditioner." ∧
    (schur_2x2.create_traced
        [PrecField.ofPrec "ilu", PrecField.ofPrec "ilu"] c0ex P2ex).1 =
      [LAEvent.extract, LAEvent.extract, LAEvent.extract, LAEvent.extract,
       LAEvent.matprod, LAEvent.matprod] :=
  ⟨rfl, rfl⟩

/-- C7 (amended): a mismatched field count raises before any
linear-algebra work; an unknown `schur_block_scaling` type raises after
the four submatrix extractions but before any matrix product; an
unknown per-field `prec` raises only after both the extractions and the
products of `init_mat_vec`; and no field solve is ever performed during
`create`. -/
theorem C7_create_error_order {n1 n2 : ℕ} (fields : List PrecField)
    (c0 : ScaleOpt) (P : Op2 n1 n2) :
    (fields.length ≠ 2 →
      schur_2x2.create_traced fields c0 P =
        ([], .error "AssertionError: nfields == 2")) ∧
    (∀ f0 f1, fields = [f0, f1] →
      c0.type ≠ "diag" → c0.type ≠ "rowsum" → c0.type ≠ "none" →
      (schur_2x2.create_traced fields c0 P).1 =
        [LAEvent.extract, LAEvent.extract, LAEvent.extract,
         LAEvent.extract] ∧
      (schur_2x2.create_traced fields c0 P).2 =
        .error "Unknown schur_block_scaling option!") ∧
    (∀ f0 f1, fields = [f0, f1] →
      f0.prec ≠ "amg" → f0.prec ≠ "direct" →
      (∃ v, scaling_vec_init c0 P.P11 = .ok v) →
      (schur_2x2.create_traced fields c0 P).1 =
        [LAEvent.extract, LAEvent.extract, LAEvent.extract,
         LAEvent.extract, LAEvent.matprod, LAEvent.matprod] ∧
      (schur_2x2.create_traced fields c0 P).2 =
        .error "Currently, only either amg or direct are supported as field-specific preconditioner.") ∧
    LAEvent.solve ∉ (schur_2x2.create_traced fields c0 P).1 := by
  refine ⟨?_, ?_, ?_, ?_⟩
  · intro h
    match fields, h with
    | [], _ => rfl
    | [_], _ => rfl
    | [_, _], h => exact absurd rfl h
    | _ :: _ :: _ :: _, _ => rfl
  · intro f0 f1 hf hd hr hn
    subst hf
    simp [schur_2x2.create_traced, scaling_vec_init, hd, hr, hn]
  · intro f0 f1 hf ha hdir hv
    subst hf
    obtain ⟨v, hv⟩ := hv
    simp [schur_2x2.create_traced, hv, ksp_field_options, ha, hdir]
  · match fields with
    | [] => simp [schur_2x2.create_traced]
    | [_] => simp [schur_2x2.create_traced]
    | _ :: _ :: _ :: _ => simp [schur_2x2.create_traced]
    | [f0, f1] =>
      cases hv : scaling_vec_init c0 P.P11 with
      | error e =>
        simp [schur_2x2.create_traced, hv]
      | ok v =>
        cases h0 : ksp_field_options f0 with
        | error e =>
          simp [schur_2x2.create_traced, hv, h0]
        | ok u =>
          cases h1 : ksp_field_options f1 with
          | error e => simp [schur_2x2.create_traced, hv, h0, h1]
          | ok u2 => simp [schur_2x2.create_traced, hv, h0, h1]

/-- C7 amended-claim witness: each ordering statement instantiated —
an empty field list errors with no linear-algebra events; an unknown
scaling type errors with exactly the four extraction events; an unknown
`prec` errors with the extraction and product events. -/
theorem C7_create_error_order_witness :
    schur_2x2.create_traced ([] : List PrecField) c0ex P2ex =
      ([], .error "AssertionError: nfields == 2") ∧
    (schur_2x2.create_traced
        [PrecField.ofPrec "amg", PrecField.ofPrec "amg"]
        (ScaleOpt.mk "foo" 1) P2ex).1 =
      [LAEvent.extract, LAEvent.extract, LAEvent.extract,
       LAEvent.extract] ∧
    (schur_2x2.create_traced
        [PrecField.ofPrec "ilu", PrecField.ofPrec "ilu"] c0ex P2ex).1 =
      [LAEvent.extract, LAEvent.extract, LAEvent.extract,
       LAEvent.extract, LAEvent.matprod, LAEvent.matprod] ∧
    LAEvent.solve ∉ (schur_2x2.create_traced
        [PrecField.ofPrec "ilu", PrecField.ofPrec "ilu"] c0ex P2ex).1 :=
  ⟨(C7_create_error_order [] c0ex P2ex).1 (by decide),
   ((C7_create_error_order [PrecField.ofPrec "amg", PrecField.ofPrec "amg"]
      (ScaleOpt.mk "foo" 1) P2ex).2.1 _ _ rfl (by decide) (by decide)
      (by decide)).1,
   ((C7_create_error_order [PrecField.ofPrec "ilu", PrecField.ofPrec "ilu"]
      c0ex P2ex).2.2.1 _ _ rfl (by decide) (by decide) ⟨_, rfl⟩).1,
   (C7_create_error_order [PrecField.ofPrec "ilu", PrecField.ofPrec "ilu"]
      c0ex P2ex).2.2.2⟩

/-- C9: the experimental fixed-iteration stationary smoothers are
disabled at construction — both constructors unconditionally raise, for
every iteration count, so no usable instance exists; and any `create`
configuration that selects them (prec `amg`, solve `python`,
`py_solver` one of the two smoother names) makes `create` fail with the
same error, so they are never entered as a solve path. -/
theorem C9_stat_iter_smoothers_disabled :
    (∀ niter : ℕ, stat_iter_fixed.init niter =
      .error "Experimental. You should not be here!") ∧
    (∀ niter : ℕ, stat_iter_fixed_scr.init niter =
      .error "Experimental. You should not be here!") ∧
    (∀ (n1 n2 : ℕ) (f0 f1 : PrecField) (c0 : ScaleOpt) (P : Op2 n1 n2),
      f0.prec = "amg" → f0.solve = some "python" →
      (f0.py_solver = some "stat_iter_fixed" ∨
       f0.py_solver = some "stat_iter_fixed_scr") →
      (∃ v, scaling_vec_init c0 P.P11 = .ok v) →
      (schur_2x2.create_traced [f0, f1] c0 P).2 =
        .error "Experimental. You should not be here!") := by
  refine ⟨fun _ => rfl, fun _ => rfl, ?_⟩
  intro n1 n2 f0 f1 c0 P hprec hsolve hpy hv
  obtain ⟨v, hv⟩ := hv
  rcases hpy with hpy | hpy <;>
    simp [schur_2x2.create_traced, hv, ksp_field_options, hprec, hsolve,
      hpy, stat_iter_fixed.init, stat_iter_fixed_scr.init]

/-- C9 witness: a concrete configuration selecting `stat_iter_fixed`
makes `create` fail with the experimental-smoother error. -/
theorem C9_stat_iter_smoothers_disabled_witness :
    (schur_2x2.create_traced
      [PrecField.mk "amg" (some "python") (some "stat_iter_fixed") none,
       PrecField.ofPrec "direct"] c0ex P2ex).2 =
      .error "Experimental. You should not be here!" :=
  C9_stat_iter_smoothers_disabled.2.2 1 1
    (PrecField.mk "amg" (some "python") (some "stat_iter_fixed") none)
    (PrecField.ofPrec "direct") c0ex P2ex rfl rfl (Or.inl rfl) ⟨_, rfl⟩

/-- C10: constructing any block preconditioner with a number of index
sets different from the number of per-field configuration entries fails
at `__init__` (before `create`/`setUp`), for every pair of differing
lengths; and on success the stored field count `nfields` — used by all
later validation — is the length of the per-field configuration
list. -/
theorem C10_block_precond_init_field_count (iset_len : ℕ)
    (fields : List PrecField) (sbs : List ScaleOpt) :
    (iset_len ≠ fields.length →
      block_precond.init iset_len fields sbs =
        .error "AssertionError: len(iset) == nfields") ∧
    (∀ st, block_precond.init iset_len fields sbs = .ok st →
      st.nfields = fields.length) := by
  constructor
  · intro h
    simp [block_precond.init, h]
  · intro st h
    by_cases he : iset_len = fields.length
    · simp [block_precond.init, he] at h
      rw [← h]
    · simp [block_precond.init, he] at h

/-- C10 witness: a 3-index-set / 0-field construction fails with the
assertion error, and a successful 1-field construction stores
`nfields = 1`. -/
theorem C10_block_precond_init_field_count_witness :
    block_precond.init 3 ([] : List PrecField) ([] : List ScaleOpt) =
      .error "AssertionError: len(iset) == nfields" ∧
    (block_precond.mk 1 [PrecField.ofPrec "direct"] []).nfields =
      [PrecField.ofPrec "direct"].length :=
  ⟨(C10_block_precond_init_field_count 3 [] []).1 (by decide),
   (C10_block_precond_init_field_count 1 [PrecField.ofPrec "direct"]
      []).2 (block_precond.mk 1 [PrecField.ofPrec "direct"] []) (by rfl)⟩
